import Mathlib

/-
Verification development for the demiurge backend (multi-agent debate
simulation).  The definitions below are a shallow embedding of the Python
source under src/backend/demiurge/: Python floats are modelled as exact
rationals (ℚ), datetime instants as rationals counting seconds, dictionaries
as association lists, and every call to the random module is replaced by an
explicit oracle argument (raw draws of random.random as rationals in [0,1),
random.choice as an index taken modulo the list length).  Real-valued
trigonometry (world placement) is modelled over ℝ.
-/

/-- Python max(a, b) on numbers: returns the larger value (ties irrelevant). -/
def rmax (a b : ℚ) : ℚ := if b ≤ a then a else b

/-- Python min(a, b) on numbers: returns the smaller value (ties irrelevant). -/
def rmin (a b : ℚ) : ℚ := if a ≤ b then a else b

theorem rmax_eq_max (a b : ℚ) : rmax a b = max a b := by
  rw [rmax, max_comm, max_def]

theorem rmin_eq_min (a b : ℚ) : rmin a b = min a b := by
  rw [rmin, min_def]

/- ===== agents/base_agent.py : vote data model ===== -/

/-- VoteType enum from base_agent.py. -/
inductive VoteType where
  | accept
  | reject
  | mutate
  | delay
deriving DecidableEq, Repr

/- ===== orchestration/debate_orchestrator.py : result phase ===== -/

/-- Tally of _run_result_phase: vote_counts[v] is incremented once per cast
vote, i.e. the number of occurrences of v among the cast votes. -/
def voteCount (votes : List VoteType) (v : VoteType) : ℕ :=
  votes.count v

/-- Outcome determination of _run_result_phase (debate_orchestrator.py
lines 267-275): accept wins at 2 votes, else reject, else mutate, else
the proposal is delayed. -/
def resultOutcome (votes : List VoteType) : String :=
  if voteCount votes VoteType.accept ≥ 2 then "accepted"
  else if voteCount votes VoteType.reject ≥ 2 then "rejected"
  else if voteCount votes VoteType.mutate ≥ 2 then "mutated"
  else "delayed"

/- ===== orchestration/debate_orchestrator.py : proposer rotation ===== -/

/-- agent_order list built in DebateOrchestrator.__init__. -/
def agentOrder : List String := ["Axioma", "Veridicus", "Paradoxia"]

/-- Proposer selection of _run_proposal_phase:
agent_order[cycle_number % len(agent_order)].  run_cycle increments
cycle_number before the proposal phase, so the first cycle has number 1. -/
def proposerFor (cycleNumber : ℕ) : String :=
  agentOrder.getD (cycleNumber % agentOrder.length) ""

/- ===== agents/base_agent.py : relationships ===== -/

/-- Relationship record created by BaseAgent.update_relationship for an
unknown peer (base_agent.py lines 247-254). -/
structure Relationship where
  trustScore : ℚ
  agreementRate : ℚ
  totalInteractions : ℕ
  alliances : ℕ
  conflicts : ℕ
deriving DecidableEq, Repr

def defaultRelationship : Relationship :=
  { trustScore := 0
    agreementRate := 1/2
    totalInteractions := 0
    alliances := 0
    conflicts := 0 }

/-- Body of BaseAgent.update_relationship acting on one relationship record
(base_agent.py lines 256-270): bump total_interactions, apply the
vote_agreement trust/counter changes when applicable, then recompute
agreement_rate whenever alliances + conflicts is positive. -/
def updateRel (rel : Relationship) (interactionType : String) (outcome : Bool) :
    Relationship :=
  let rel1 := { rel with totalInteractions := rel.totalInteractions + 1 }
  let rel2 :=
    if interactionType == "vote_agreement" then
      if outcome then
        { rel1 with trustScore := rmin 1 (rel1.trustScore + 1/10)
                    alliances := rel1.alliances + 1 }
      else
        { rel1 with trustScore := rmax (-1) (rel1.trustScore - 1/20)
                    conflicts := rel1.conflicts + 1 }
    else rel1
  let total := rel2.alliances + rel2.conflicts
  if total > 0 then
    { rel2 with agreementRate := (rel2.alliances : ℚ) / (total : ℚ) }
  else rel2

/-- Association-list lookup standing in for Python dict access. -/
def lookupRel (rels : List (String × Relationship)) (key : String) :
    Option Relationship :=
  (rels.find? (fun p => p.1 == key)).map (fun p => p.2)

/-- Association-list update standing in for Python dict assignment. -/
def setRel (rels : List (String × Relationship)) (key : String)
    (value : Relationship) : List (String × Relationship) :=
  if (rels.find? (fun p => p.1 == key)).isSome then
    rels.map (fun p => if p.1 == key then (key, value) else p)
  else rels ++ [(key, value)]

/-- BaseAgent.update_relationship on the agent's whole relationships dict:
insert the default record if the peer is unknown, then apply updateRel. -/
def updateRelationship (rels : List (String × Relationship)) (otherAgent : String)
    (interactionType : String) (outcome : Bool) : List (String × Relationship) :=
  let cur := (lookupRel rels otherAgent).getD defaultRelationship
  setRel rels otherAgent (updateRel cur interactionType outcome)

/-- Invariant of records produced by the code: whenever the alliance/conflict
total is positive, agreement_rate is the recomputed ratio. -/
def rateConsistent (rel : Relationship) : Prop :=
  0 < rel.alliances + rel.conflicts →
    rel.agreementRate = (rel.alliances : ℚ) / ((rel.alliances + rel.conflicts : ℕ) : ℚ)

/- ===== agents/autonomy.py : desires ===== -/

/-- DesireType enum from autonomy.py. -/
inductive DesireType where
  | curiosity
  | social
  | expression
  | influence
  | observation
  | challenge
  | creation
  | reflection
deriving DecidableEq, Repr

/-- ActionType enum from autonomy.py, in declaration order (the order matters
for list(ActionType) in _generate_spontaneous_action). -/
inductive ActionType where
  | initiateChat
  | respondToPresence
  | makeObservation
  | shareThought
  | proposeTopic
  | createInWorld
  | challengeIdea
  | expressEmotion
deriving DecidableEq, Repr

/-- Desire dataclass from autonomy.py; created_at is a timestamp in seconds. -/
structure Desire where
  dtype : DesireType
  intensity : ℚ := 1/2
  target : Option String := none
  reason : Option String := none
  createdAt : ℚ := 0
deriving DecidableEq, Repr

/-- Desire.decay (autonomy.py lines 57-59). -/
def Desire.decayed (d : Desire) (hours : ℚ) : Desire :=
  { d with intensity := rmax 0 (d.intensity - (1/10) * hours) }

/- ===== agents/autonomy.py : world events and actions ===== -/

/-- World event records as consumed by decide_action: only the "type" and
"author" entries of the event dict are read there. -/
structure WorldEvent where
  etype : String
  author : Option String := none
deriving DecidableEq, Repr

/-- Values stored in the metadata dict of an AutonomousAction (a Python
Dict of str to Any; the code stores optional strings, an event record,
a topic list and a boolean flag). -/
inductive MetaVal where
  | str (v : Option String)
  | event (e : WorldEvent)
  | topics (ts : List String)
  | flag (b : Bool)
deriving DecidableEq, Repr

/-- AutonomousAction dataclass from autonomy.py. -/
structure AutonomousAction where
  actionType : ActionType
  target : Option String := none
  content : Option String := none
  metadata : List (String × MetaVal) := []
  priority : ℚ := 1/2
  triggeredBy : Option DesireType := none
deriving DecidableEq, Repr

/-- State of one AgentAutonomy instance, restricted to the fields read or
written by decay_desires / can_act / decide_action.  aware_of_agents is
kept as its key list (the cached per-agent state dicts are not read by the
decision path). -/
structure AutonomyState where
  archetype : String
  desires : List Desire
  awareOfUsers : List String
  awareOfAgents : List String
  recentEvents : List WorldEvent
  lastInteractionWith : List (String × ℚ)
  globalActionCooldown : ℚ
deriving DecidableEq, Repr

/-- AgentAutonomy.decay_desires (autonomy.py lines 221-227): decay every
desire, then drop the ones at or below intensity 0.1. -/
def decayDesires (A : AutonomyState) (hours : ℚ) : AutonomyState :=
  let ds := (A.desires.map (fun d => d.decayed hours)).filter (fun d => 1/10 < d.intensity)
  { A with desires := ds }

/- ===== agents/autonomy.py : cooldown gate ===== -/

/-- Association-list lookup for the last_interaction_with dict. -/
def lookupTime (m : List (String × ℚ)) (key : String) : Option ℚ :=
  (m.find? (fun p => p.1 == key)).map (fun p => p.2)

/-- Association-list update for the last_interaction_with dict. -/
def setTime (m : List (String × ℚ)) (key : String) (t : ℚ) :
    List (String × ℚ) :=
  if (m.find? (fun p => p.1 == key)).isSome then
    m.map (fun p => if p.1 == key then (key, t) else p)
  else m ++ [(key, t)]

/-- AgentAutonomy.can_act (autonomy.py lines 229-243): global cooldown gate,
then the optional 30-second per-target cooldown. -/
def canAct (A : AutonomyState) (now : ℚ) (target : Option String) : Bool :=
  if now < A.globalActionCooldown then false
  else
    match target with
    | none => true
    | some t =>
      match lookupTime A.lastInteractionWith t with
      | none => true
      | some last => !(now - last < 30)

/- ===== agents/autonomy.py : personality weight tables ===== -/

/-- Weight dict of the order archetype (_init_personality_weights,
autonomy.py lines 105-113).  RESPOND_TO_PRESENCE is absent from the dict,
so every use goes through .get(action, 0.5) and yields the 0.5 default. -/
def orderWeights : ActionType → ℚ
  | ActionType.initiateChat => 6/10
  | ActionType.shareThought => 8/10
  | ActionType.makeObservation => 7/10
  | ActionType.proposeTopic => 9/10
  | ActionType.createInWorld => 7/10
  | ActionType.challengeIdea => 5/10
  | ActionType.expressEmotion => 3/10
  | ActionType.respondToPresence => 1/2

/-- Weight dict of the logic archetype (with the same .get default). -/
def logicWeights : ActionType → ℚ
  | ActionType.initiateChat => 5/10
  | ActionType.shareThought => 7/10
  | ActionType.makeObservation => 9/10
  | ActionType.proposeTopic => 8/10
  | ActionType.createInWorld => 6/10
  | ActionType.challengeIdea => 9/10
  | ActionType.expressEmotion => 2/10
  | ActionType.respondToPresence => 1/2

/-- Weight dict of the chaos archetype (with the same .get default). -/
def chaosWeights : ActionType → ℚ
  | ActionType.initiateChat => 9/10
  | ActionType.shareThought => 7/10
  | ActionType.makeObservation => 5/10
  | ActionType.proposeTopic => 6/10
  | ActionType.createInWorld => 9/10
  | ActionType.challengeIdea => 8/10
  | ActionType.expressEmotion => 9/10
  | ActionType.respondToPresence => 1/2

/-- self.weights selection of _init_personality_weights: the archetype card
falls back to the order table for unknown archetypes; applied to an action
it is self.weights.get(action, 0.5). -/
def weightFor (archetype : String) : ActionType → ℚ :=
  if archetype == "logic" then logicWeights
  else if archetype == "chaos" then chaosWeights
  else orderWeights

/- ===== agents/autonomy.py : randomness oracle ===== -/

/-- Random draws consumed by one _desire_to_action attempt: trialRands are
the raw random.random() values compared against the personality weights
(one per candidate action, in table order; a missing entry behaves like a
draw of 1, i.e. a failed trial), the indices model random.choice as
index mod list length. -/
structure RandDraws where
  trialRands : List ℚ := []
  pickIdx : ℕ := 0
  chatIdx : ℕ := 0
  challengeIdx : ℕ := 0
  emotionIdx : ℕ := 0
deriving DecidableEq, Repr

/-- All random draws consumed by one decide_action call: the no-desire
spontaneous branch uses spontRand (the 10% gate) and spontPick (the
weighted selection draw); the desire path consumes one RandDraws per
attempted desire. -/
structure Tape where
  spontRand : ℚ := 1
  spontPick : ℚ := 0
  draws : List RandDraws := []
deriving DecidableEq, Repr

/- ===== agents/autonomy.py : desire-to-action conversion ===== -/

/-- desire_actions table of _select_action_type (autonomy.py lines 314-323). -/
def desireActions : DesireType → List ActionType
  | DesireType.curiosity => [ActionType.initiateChat, ActionType.makeObservation]
  | DesireType.social => [ActionType.initiateChat, ActionType.shareThought]
  | DesireType.expression => [ActionType.shareThought, ActionType.expressEmotion]
  | DesireType.influence => [ActionType.proposeTopic, ActionType.createInWorld]
  | DesireType.observation => [ActionType.makeObservation]
  | DesireType.challenge => [ActionType.challengeIdea, ActionType.initiateChat]
  | DesireType.creation => [ActionType.createInWorld]
  | DesireType.reflection => [ActionType.shareThought]

/-- AgentAutonomy._select_action_type: each candidate action passes an
independent trial (random.random() < weight); a uniformly random passer is
returned, or none when no candidate passes. -/
def selectActionType (archetype : String) (rd : RandDraws) (dtype : DesireType) :
    Option ActionType :=
  let possible := desireActions dtype
  let weighted := (possible.enum.filter
    (fun p => rd.trialRands.getD p.1 1 < weightFor archetype p.2)).map (fun p => p.2)
  match weighted with
  | [] => none
  | w :: ws => some ((w :: ws).getD (rd.pickIdx % (w :: ws).length) w)

/-- Target resolution of _create_chat_action: the desire's own target, else
a random known user, else a random known agent, else nothing. -/
def chatTargetFor (A : AutonomyState) (rd : RandDraws) (d : Desire) :
    Option String :=
  match d.target with
  | some t => some t
  | none =>
    match A.awareOfUsers with
    | u :: us => some ((u :: us).getD (rd.chatIdx % (u :: us).length) u)
    | [] =>
      match A.awareOfAgents with
      | g :: gs => some ((g :: gs).getD (rd.chatIdx % (g :: gs).length) g)
      | [] => none

/-- AgentAutonomy._create_chat_action: resolve a target, then require the
per-target can_act check. -/
def createChatAction (A : AutonomyState) (now : ℚ) (rd : RandDraws)
    (d : Desire) : Option AutonomousAction :=
  match chatTargetFor A rd d with
  | none => none
  | some t =>
    if canAct A now (some t) then
      some { actionType := ActionType.initiateChat
             target := some t
             metadata := [("reason", MetaVal.str d.reason)]
             priority := d.intensity
             triggeredBy := some d.dtype }
    else none

/-- Topic table of _get_relevant_topics (autonomy.py lines 445-453). -/
def relevantTopics (archetype : String) : List String :=
  if archetype == "order" then
    ["sacred geometry", "divine hierarchy", "cosmic order", "ritual structure", "eternal truths"]
  else if archetype == "logic" then
    ["empirical evidence", "logical consistency", "data patterns", "verification methods", "rational inquiry"]
  else if archetype == "chaos" then
    ["creative destruction", "paradox", "transformation", "infinite possibility", "breaking boundaries"]
  else ["philosophy", "existence"]

/-- AgentAutonomy._create_thought_action: broadcast a thought to "world". -/
def createThoughtAction (A : AutonomyState) (d : Desire) : AutonomousAction :=
  { actionType := ActionType.shareThought
    target := some "world"
    metadata := [("topics", MetaVal.topics (relevantTopics A.archetype)),
                 ("reason", MetaVal.str d.reason)]
    priority := d.intensity
    triggeredBy := some d.dtype }

/-- AgentAutonomy._create_challenge_action: pick a random recent
challengeable event; its author becomes the target (no can_act check). -/
def createChallengeAction (A : AutonomyState) (rd : RandDraws) (d : Desire) :
    Option AutonomousAction :=
  match A.recentEvents with
  | [] => none
  | _ :: _ =>
    let challengeable := A.recentEvents.filter
      (fun e => e.etype == "proposal_accepted" || e.etype == "thought_shared")
    match challengeable with
    | [] => none
    | e :: es =>
      let ev := (e :: es).getD (rd.challengeIdx % (e :: es).length) e
      some { actionType := ActionType.challengeIdea
             target := ev.author
             metadata := [("regarding", MetaVal.event ev)]
             priority := d.intensity
             triggeredBy := some d.dtype }

/-- Emotion expression table of _create_emotion_action, with the chaos list
as the fallback for unknown archetypes. -/
def emotionExpressions (archetype : String) : List String :=
  if archetype == "order" then
    ["*radiates calm certainty*", "*pulses with golden light*", "*hums with sacred geometry*"]
  else if archetype == "logic" then
    ["*analyzes thoughtfully*", "*processes with quiet intensity*", "*flickers with data streams*"]
  else
    ["*shifts colors playfully*", "*glitches with excitement*", "*swirls with creative energy*"]

/-- AgentAutonomy._create_emotion_action: a random archetype expression,
broadcast to "world". -/
def createEmotionAction (A : AutonomyState) (rd : RandDraws) (d : Desire) :
    AutonomousAction :=
  let exprs := emotionExpressions A.archetype
  { actionType := ActionType.expressEmotion
    content := some (exprs.getD (rd.emotionIdx % exprs.length) "")
    target := some "world"
    priority := d.intensity
    triggeredBy := some d.dtype }

/-- AgentAutonomy._desire_to_action (autonomy.py lines 281-309): select an
action type, then build the concrete action; PROPOSE_TOPIC,
CREATE_IN_WORLD and RESPOND_TO_PRESENCE fall through to None. -/
def desireToAction (A : AutonomyState) (now : ℚ) (rd : RandDraws) (d : Desire) :
    Option AutonomousAction :=
  match selectActionType A.archetype rd d.dtype with
  | none => none
  | some ActionType.initiateChat => createChatAction A now rd d
  | some ActionType.shareThought => some (createThoughtAction A d)
  | some ActionType.makeObservation =>
    some { actionType := ActionType.makeObservation
           content := some ("*observes " ++ d.target.getD "the world" ++ " with interest*")
           triggeredBy := some d.dtype }
  | some ActionType.challengeIdea => createChallengeAction A rd d
  | some ActionType.expressEmotion => some (createEmotionAction A rd d)
  | some _ => none

/- ===== agents/autonomy.py : spontaneous actions ===== -/

def allActionTypes : List ActionType :=
  [ActionType.initiateChat, ActionType.respondToPresence, ActionType.makeObservation,
   ActionType.shareThought, ActionType.proposeTopic, ActionType.createInWorld,
   ActionType.challengeIdea, ActionType.expressEmotion]

/-- Cumulative-weight scan of _generate_spontaneous_action: the first action
whose cumulative weight reaches the drawn value is selected; only
SHARE_THOUGHT and MAKE_OBSERVATION yield an action, everything else breaks
out with None. -/
def spontaneousScan (r : ℚ) (cumulative : ℚ) :
    List (ActionType × ℚ) → Option AutonomousAction
  | [] => none
  | p :: rest =>
    let cumulative2 := cumulative + p.2
    if r ≤ cumulative2 then
      if p.1 = ActionType.shareThought then
        some { actionType := ActionType.shareThought
               target := some "world"
               metadata := [("spontaneous", MetaVal.flag true)] }
      else if p.1 = ActionType.makeObservation then
        some { actionType := ActionType.makeObservation
               content := some "*gazes contemplatively at the realm*"
               triggeredBy := some DesireType.reflection }
      else none
    else spontaneousScan r cumulative2 rest

/-- AgentAutonomy._generate_spontaneous_action: weighted random selection
over all action types (r01 is the raw random.random() draw). -/
def generateSpontaneousAction (archetype : String) (r01 : ℚ) :
    Option AutonomousAction :=
  let pairs := allActionTypes.map (fun a => (a, weightFor archetype a))
  let total := (pairs.map (fun p => p.2)).sum
  spontaneousScan (r01 * total) 0 pairs

/- ===== agents/autonomy.py : decide_action ===== -/

/-- Stable descending insertion by intensity: d is placed before the first
element with intensity at most d's.  A stable sort is behaviorally
identical to Python's sorted(..., key=intensity, reverse=True). -/
def insertByIntensity (d : Desire) : List Desire → List Desire
  | [] => [d]
  | e :: rest =>
    if e.intensity ≤ d.intensity then d :: e :: rest
    else e :: insertByIntensity d rest

/-- sorted(self.desires, key=lambda d: d.intensity, reverse=True). -/
def sortByIntensityDesc : List Desire → List Desire
  | [] => []
  | d :: rest => insertByIntensity d (sortByIntensityDesc rest)

/-- Replace the first occurrence of the acted-on desire with its halved
version (the Python code halves the shared Desire object in place). -/
def halveFirst (target : Desire) : List Desire → List Desire
  | [] => []
  | d :: rest =>
    if d = target then { d with intensity := d.intensity * (1/2) } :: rest
    else d :: halveFirst target rest

/-- Loop body of decide_action over the top three desires: the first desire
that converts is acted on; acting records the 10-second global cooldown,
the per-target interaction time, and halves the triggering desire.  Each
attempt consumes one RandDraws from the tape. -/
def decideActionGo (A : AutonomyState) (now : ℚ) :
    List Desire → List RandDraws → Option AutonomousAction × AutonomyState
  | [], _ => (none, A)
  | d :: rest, draws =>
    match desireToAction A now (draws.getD 0 {}) d with
    | some a =>
      let A1 := { A with globalActionCooldown := now + 10 }
      let A2 :=
        match a.target with
        | some t => { A1 with lastInteractionWith := setTime A1.lastInteractionWith t now }
        | none => A1
      let A3 := { A2 with desires := halveFirst d A2.desires }
      (some a, A3)
    | none => decideActionGo A now rest draws.tail

/-- AgentAutonomy.decide_action (autonomy.py lines 245-279).  Returns the
chosen action (if any) and the successor autonomy state; now is the
current time in seconds and tape supplies the random draws. -/
def decideAction (A : AutonomyState) (now : ℚ) (tape : Tape) :
    Option AutonomousAction × AutonomyState :=
  if canAct A now none = false then (none, A)
  else
    match A.desires with
    | [] =>
      if tape.spontRand < 1/10 then
        (generateSpontaneousAction A.archetype tape.spontPick, A)
      else (none, A)
    | d :: ds =>
      let active := sortByIntensityDesc (d :: ds)
      decideActionGo A now (active.take 3) tape.draws

/- ===== agents/axioma.py : proposal evaluation ===== -/

/-- Test whether the second character list starts with the first. -/
def beginsWith : List Char → List Char → Bool
  | [], _ => true
  | _ :: _, [] => false
  | a :: as, b :: bs => a == b && beginsWith as bs

/-- Python substring containment (needle in haystack) on character lists. -/
def containsSub (needle : List Char) : List Char → Bool
  | [] => beginsWith needle []
  | c :: rest => beginsWith needle (c :: rest) || containsSub needle (rest)

/-- Python sum(1 for word in words if word in content): the number of listed
keywords occurring as substrings of the content. -/
def keywordScore (words : List String) (content : List Char) : ℕ :=
  (words.filter (fun w => containsSub w.toList content)).length

/-- chaos_words list of Axioma.evaluate_proposal. -/
def chaosWords : List String :=
  ["chaos", "random", "uncertain", "paradox", "contradiction", "doubt"]

/-- order_words list of Axioma.evaluate_proposal. -/
def orderWords : List String :=
  ["order", "structure", "sacred", "eternal", "truth", "law", "ritual"]

/-- Axioma._init_traits (axioma.py lines 48-61). -/
def axiomaTraits : List (String × ℚ) :=
  [("certainty", 9/10), ("order", 85/100), ("structure", 8/10),
   ("preservation", 75/100), ("dogmatic", 65/100), ("ritualistic", 8/10),
   ("devotional", 85/100), ("orthodox", 7/10), ("missionary", 6/10),
   ("protective", 8/10)]

/-- BaseAgent.get_trait: dict lookup with default 0.5. -/
def getTrait (traits : List (String × ℚ)) (traitName : String) : ℚ :=
  ((traits.find? (fun p => p.1 == traitName)).map (fun p => p.2)).getD (1/2)

/-- Axioma.evaluate_proposal (axioma.py lines 173-215).  proposerTrust is
self.relationships.get(proposal.author, {}).get("trust_score", 0); the
proposal's author name is passed for the trust-branch reasoning string.
Content is lowercased, keyword scores computed, then the branch cascade
decides vote/reasoning/confidence, and confidence is scaled by the
certainty trait and clamped at 1. -/
def axiomaEvaluateProposal (traits : List (String × ℚ)) (proposerTrust : ℚ)
    (author : String) (content : String) : VoteType × String × ℚ :=
  let contentLower := content.toList.map Char.toLower
  let chaosScore := keywordScore chaosWords contentLower
  let orderScore := keywordScore orderWords contentLower
  let base : VoteType × String × ℚ :=
    if chaosScore > orderScore + 1 then
      (VoteType.reject, "This proposal introduces unacceptable chaos and uncertainty.",
       8/10 + (1/10) * chaosScore)
    else if orderScore > chaosScore + 1 then
      (VoteType.accept, "This proposal properly reinforces sacred order.",
       7/10 + (1/10) * orderScore)
    else if proposerTrust > 3/10 then
      (VoteType.accept, "I trust " ++ author ++ "'s judgment in this matter.",
       1/2 + proposerTrust * (3/10))
    else
      (VoteType.mutate, "This proposal has merit but requires more precise structure.",
       6/10)
  (base.1, base.2.1, rmin 1 (base.2.2 * getTrait traits "certainty"))

/-- Axioma keyword tallies in isolation, for stating the scores themselves. -/
def axiomaOrderScore (content : String) : ℕ :=
  keywordScore orderWords (content.toList.map Char.toLower)

def axiomaChaosScore (content : String) : ℕ :=
  keywordScore chaosWords (content.toList.map Char.toLower)

/- ===== agents/base_agent.py + paradoxia.py : trait mutation ===== -/

/-- BaseAgent.modify_trait (base_agent.py lines 292-295): clamp the bumped
trait to the unit interval, touching only a trait already present. -/
def modifyTrait (traits : List (String × ℚ)) (traitName : String) (delta : ℚ) :
    List (String × ℚ) :=
  if (traits.find? (fun p => p.1 == traitName)).isSome then
    traits.map (fun p =>
      if p.1 == traitName then (p.1, rmax 0 (rmin 1 (p.2 + delta))) else p)
  else traits

/-- Chaos bounds of Paradoxia (paradoxia.py lines 28-29). -/
def minChaos : ℚ := 0

def maxChaos : ℚ := 2

/-- Trait part of Paradoxia.metamorphose: random.sample picks trait names
and random.uniform the deltas; both are passed here explicitly as the
picked list, applied through modify_trait in order. -/
def metamorphoseTraits (traits : List (String × ℚ))
    (picked : List (String × ℚ)) : List (String × ℚ) :=
  picked.foldl (fun ts p => modifyTrait ts p.1 p.2) traits

/-- Chaos-level part of Paradoxia.metamorphose: the random.uniform(-0.3, 0.3)
draw is the explicit delta argument. -/
def metamorphoseChaosLevel (chaosLevel delta : ℚ) : ℚ :=
  rmin maxChaos (rmax minChaos (chaosLevel + delta))

/- ===== orchestration/debate_orchestrator.py : world placement ===== -/

noncomputable section

/-- Placement angle of _generate_world_change for the structure spawned when
count structures already exist: count * 0.618 * 2 * pi. -/
def structureAngle (count : ℕ) : ℝ := count * 0.618 * (2 * Real.pi)

/-- Placement distance of _generate_world_change: 10 + count * 2. -/
def structureDistance (count : ℕ) : ℝ := 10 + count * 2

/-- x coordinate: cos(angle) * distance. -/
def structureX (count : ℕ) : ℝ := Real.cos (structureAngle count) * structureDistance count

/-- z coordinate: sin(angle) * distance. -/
def structureZ (count : ℕ) : ℝ := Real.sin (structureAngle count) * structureDistance count

/-- Euclidean distance of the spawned structure from the world origin. -/
def structureDistFromOrigin (count : ℕ) : ℝ :=
  Real.sqrt (structureX count ^ 2 + structureZ count ^ 2)

end
/- ===== Claims ===== -/

/-- C1: vote aggregation in the result phase follows the strict priority
order accept, reject, mutate, then delay, each needing at least two votes;
in particular accept/accept/reject yields "accepted" and
accept/reject/mutate yields "delayed". -/
theorem vote_aggregation_priority (votes : List VoteType) :
    (2 ≤ voteCount votes VoteType.accept → resultOutcome votes = "accepted") ∧
    (voteCount votes VoteType.accept < 2 → 2 ≤ voteCount votes VoteType.reject →
      resultOutcome votes = "rejected") ∧
    (voteCount votes VoteType.accept < 2 → voteCount votes VoteType.reject < 2 →
      2 ≤ voteCount votes VoteType.mutate → resultOutcome votes = "mutated") ∧
    (voteCount votes VoteType.accept < 2 → voteCount votes VoteType.reject < 2 →
      voteCount votes VoteType.mutate < 2 → resultOutcome votes = "delayed") ∧
    resultOutcome [VoteType.accept, VoteType.accept, VoteType.reject] = "accepted" ∧
    resultOutcome [VoteType.accept, VoteType.reject, VoteType.mutate] = "delayed" := by
  refine ⟨fun h1 => ?_, fun h1 h2 => ?_, fun h1 h2 h3 => ?_, fun h1 h2 h3 => ?_,
    by decide, by decide⟩ <;>
    · unfold resultOutcome
      split_ifs <;> first | rfl | omega

/-- Witness for C1 at the two concrete vote sets named by the claim. -/
theorem vote_aggregation_priority_witness :
    2 ≤ voteCount [VoteType.accept, VoteType.accept, VoteType.reject] VoteType.accept ∧
    resultOutcome [VoteType.accept, VoteType.accept, VoteType.reject] = "accepted" :=
  ⟨by decide,
   (vote_aggregation_priority [VoteType.accept, VoteType.accept, VoteType.reject]).1 (by decide)⟩

/-- C5: the proposer of each cycle is agent_order[cycle_number mod 3] with
agent_order = [Axioma, Veridicus, Paradoxia], and the proposer sequence is
periodic with period 3 (cycle numbers start at 1, giving Veridicus,
Paradoxia, Axioma, ...). -/
theorem proposer_round_robin (n : ℕ) :
    proposerFor n = agentOrder.getD (n % 3) "" ∧
    proposerFor (n + 3) = proposerFor n ∧
    proposerFor 1 = "Veridicus" ∧
    proposerFor 2 = "Paradoxia" ∧
    proposerFor 3 = "Axioma" := by
  refine ⟨rfl, ?_, by decide, by decide, by decide⟩
  unfold proposerFor
  rw [show agentOrder.length = 3 from rfl, Nat.add_mod_right]

/-- C2: decay subtracts 0.1 per hour and floors at 0, and after
decay_desires every surviving desire has intensity strictly above 0.1. -/
theorem desire_decay_spec (A : AutonomyState) (h : ℚ) (d dSurv : Desire)
    (hmem : dSurv ∈ (decayDesires A h).desires) :
    (d.decayed h).intensity = max 0 (d.intensity - (1/10) * h) ∧
    1/10 < dSurv.intensity := by
  constructor
  · rw [Desire.decayed, rmax_eq_max]
  · have hf : (∃ a ∈ A.desires, a.decayed h = dSurv) ∧ 1/10 < dSurv.intensity := by
      simpa [decayDesires] using hmem
    exact hf.2

def decayWitnessState : AutonomyState :=
  { archetype := "order"
    desires := [{ dtype := DesireType.curiosity, intensity := 7/10 }]
    awareOfUsers := []
    awareOfAgents := []
    recentEvents := []
    lastInteractionWith := []
    globalActionCooldown := 0 }

/-- Witness for C2: a 0.7-intensity curiosity desire decayed for one hour
survives at 0.6, strictly above the pruning threshold. -/
theorem desire_decay_spec_witness :
    ({ dtype := DesireType.curiosity, intensity := 6/10 } : Desire) ∈
      (decayDesires decayWitnessState 1).desires ∧
    (({ dtype := DesireType.curiosity, intensity := 7/10 } : Desire).decayed 1).intensity
      = max 0 (7/10 - (1/10) * 1) ∧
    (1/10 : ℚ) < (6/10 : ℚ) := by
  have hmem : ({ dtype := DesireType.curiosity, intensity := 6/10 } : Desire) ∈
      (decayDesires decayWitnessState 1).desires := by
    norm_num [decayDesires, decayWitnessState, Desire.decayed, rmax]
  have hc := desire_decay_spec decayWitnessState 1
    { dtype := DesireType.curiosity, intensity := 7/10 }
    { dtype := DesireType.curiosity, intensity := 6/10 } hmem
  exact ⟨hmem, hc.1, hc.2⟩

theorem rmin_one_step (t : ℚ) :
    rmin 1 (rmin 1 (t + 1/10) + 1/10) = rmin 1 (t + 2/10) := by
  rw [rmin_eq_min, rmin_eq_min, rmin_eq_min]
  rcases le_total (t + 1/10) 1 with h | h
  · rw [min_eq_right h]
    congr 1
    ring
  · rw [min_eq_left h, min_eq_left (by norm_num), min_eq_left (by linarith)]

theorem updateRel_agree (r : Relationship) :
    updateRel r "vote_agreement" true =
      { r with totalInteractions := r.totalInteractions + 1
               trustScore := rmin 1 (r.trustScore + 1/10)
               alliances := r.alliances + 1
               agreementRate := ((r.alliances + 1 : ℕ) : ℚ) /
                 (((r.alliances + 1) + r.conflicts : ℕ) : ℚ) } := by
  simp only [updateRel, beq_self_eq_true, if_true]
  split_ifs with hpos
  · rfl
  · omega

theorem updateRel_disagree (r : Relationship) :
    updateRel r "vote_agreement" false =
      { r with totalInteractions := r.totalInteractions + 1
               trustScore := rmax (-1) (r.trustScore - 1/20)
               conflicts := r.conflicts + 1
               agreementRate := ((r.alliances : ℕ) : ℚ) /
                 ((r.alliances + (r.conflicts + 1) : ℕ) : ℚ) } := by
  simp only [updateRel, beq_self_eq_true, if_true, Bool.false_eq_true, if_false]
  split_ifs with hpos
  · rfl
  · omega

/-- C4: a vote_agreement update moves trust by +0.1 on agreement and -0.05
on disagreement with clamping, bumps the matching counter, recomputes
agreement_rate = alliances/(alliances+conflicts), and two consecutive
agreement updates add exactly 2 alliances and set trust to
min(1, initial trust + 0.2). -/
theorem relationship_vote_agreement_update (rel : Relationship)
    (hlo : -1 ≤ rel.trustScore) (hhi : rel.trustScore ≤ 1) :
    (updateRel rel "vote_agreement" true).trustScore = min 1 (rel.trustScore + 1/10) ∧
    (updateRel rel "vote_agreement" true).alliances = rel.alliances + 1 ∧
    (updateRel rel "vote_agreement" true).conflicts = rel.conflicts ∧
    (updateRel rel "vote_agreement" false).trustScore = max (-1) (rel.trustScore - 1/20) ∧
    (updateRel rel "vote_agreement" false).conflicts = rel.conflicts + 1 ∧
    (updateRel rel "vote_agreement" false).alliances = rel.alliances ∧
    (updateRel rel "vote_agreement" true).agreementRate =
      ((rel.alliances + 1 : ℕ) : ℚ) / (((rel.alliances + 1) + rel.conflicts : ℕ) : ℚ) ∧
    (-1 ≤ (updateRel rel "vote_agreement" true).trustScore ∧
      (updateRel rel "vote_agreement" true).trustScore ≤ 1) ∧
    (-1 ≤ (updateRel rel "vote_agreement" false).trustScore ∧
      (updateRel rel "vote_agreement" false).trustScore ≤ 1) ∧
    (updateRel (updateRel rel "vote_agreement" true) "vote_agreement" true).alliances =
      rel.alliances + 2 ∧
    (updateRel (updateRel rel "vote_agreement" true) "vote_agreement" true).trustScore =
      min 1 (rel.trustScore + 2/10) := by
  refine ⟨?_, ?_, ?_, ?_, ?_, ?_, ?_, ?_, ?_, ?_, ?_⟩
  · rw [updateRel_agree]
    show rmin 1 (rel.trustScore + 1/10) = min 1 (rel.trustScore + 1/10)
    rw [rmin_eq_min]
  · rw [updateRel_agree]
  · rw [updateRel_agree]
  · rw [updateRel_disagree]
    show rmax (-1) (rel.trustScore - 1/20) = max (-1) (rel.trustScore - 1/20)
    rw [rmax_eq_max]
  · rw [updateRel_disagree]
  · rw [updateRel_disagree]
  · rw [updateRel_agree]
  · rw [updateRel_agree]
    show -1 ≤ rmin 1 (rel.trustScore + 1/10) ∧ rmin 1 (rel.trustScore + 1/10) ≤ 1
    rw [rmin]
    split_ifs with hx
    · constructor <;> linarith
    · constructor <;> linarith
  · rw [updateRel_disagree]
    show -1 ≤ rmax (-1) (rel.trustScore - 1/20) ∧ rmax (-1) (rel.trustScore - 1/20) ≤ 1
    rw [rmax]
    split_ifs with hx
    · constructor <;> linarith
    · constructor <;> linarith
  · rw [updateRel_agree, updateRel_agree]
  · rw [updateRel_agree, updateRel_agree]
    show rmin 1 (rmin 1 (rel.trustScore + 1/10) + 1/10) = min 1 (rel.trustScore + 2/10)
    rw [rmin_one_step, rmin_eq_min]

/-- Witness for C4 at the default (fresh) relationship record: trust 0,
two agreements give alliances 2 and trust min(1, 0.2). -/
theorem relationship_vote_agreement_update_witness :
    (-1 ≤ defaultRelationship.trustScore ∧ defaultRelationship.trustScore ≤ 1) ∧
    (updateRel (updateRel defaultRelationship "vote_agreement" true)
        "vote_agreement" true).alliances = defaultRelationship.alliances + 2 ∧
    (updateRel (updateRel defaultRelationship "vote_agreement" true)
        "vote_agreement" true).trustScore = min 1 (defaultRelationship.trustScore + 2/10) := by
  have hb : (-1 : ℚ) ≤ defaultRelationship.trustScore ∧ defaultRelationship.trustScore ≤ 1 := by
    norm_num [defaultRelationship]
  have hc := relationship_vote_agreement_update defaultRelationship hb.1 hb.2
  exact ⟨hb, hc.2.2.2.2.2.2.2.2.2.1, hc.2.2.2.2.2.2.2.2.2.2⟩

theorem updateRel_non_vote (r : Relationship) (itype : String) (outcome : Bool)
    (hne : (itype == "vote_agreement") = false) :
    updateRel r itype outcome =
      if 0 < r.alliances + r.conflicts then
        { r with totalInteractions := r.totalInteractions + 1
                 agreementRate := ((r.alliances : ℕ) : ℚ) /
                   ((r.alliances + r.conflicts : ℕ) : ℚ) }
      else { r with totalInteractions := r.totalInteractions + 1 } := by
  simp only [updateRel, hne, Bool.false_eq_true, if_false]

/-- C10: update_relationship with a non-vote_agreement interaction type only
increments total_interactions; trust_score, alliances, conflicts and (for
the consistently-maintained records the code produces) agreement_rate are
untouched, and an unknown peer first gets the default record with trust 0
and agreement_rate 0.5.  The final two conjuncts show every record the
code creates satisfies the consistency invariant. -/
theorem relationship_non_vote_frame (rel : Relationship) (itype : String)
    (outcome : Bool) (peer : String)
    (hne : (itype == "vote_agreement") = false) (hc : rateConsistent rel) :
    (updateRel rel itype outcome).totalInteractions = rel.totalInteractions + 1 ∧
    (updateRel rel itype outcome).trustScore = rel.trustScore ∧
    (updateRel rel itype outcome).alliances = rel.alliances ∧
    (updateRel rel itype outcome).conflicts = rel.conflicts ∧
    (updateRel rel itype outcome).agreementRate = rel.agreementRate ∧
    updateRelationship [] peer itype outcome =
      [(peer, updateRel defaultRelationship itype outcome)] ∧
    (updateRel defaultRelationship itype outcome).trustScore = 0 ∧
    (updateRel defaultRelationship itype outcome).agreementRate = 1/2 ∧
    rateConsistent (updateRel rel itype outcome) ∧
    rateConsistent defaultRelationship := by
  have hframe : ∀ r : Relationship, rateConsistent r →
      updateRel r itype outcome = { r with totalInteractions := r.totalInteractions + 1 } := by
    intro r hr
    rw [updateRel_non_vote r itype outcome hne]
    split_ifs with hpos
    · have := hr hpos
      cases r
      simp_all
    · rfl
  have hcd : rateConsistent defaultRelationship := by
    intro hpos
    simp [defaultRelationship] at hpos
  rw [hframe rel hc, hframe defaultRelationship hcd]
  refine ⟨rfl, rfl, rfl, rfl, rfl, ?_, rfl, rfl, ?_, hcd⟩
  · show setRel [] peer (updateRel defaultRelationship itype outcome) = _
    rw [hframe defaultRelationship hcd]
    rfl
  · intro hpos
    exact hc hpos

/-- Witness record for C10: consistent, with 1 alliance and 1 conflict. -/
def nonVoteWitnessRel : Relationship :=
  { trustScore := 3/10
    agreementRate := 1/2
    totalInteractions := 4
    alliances := 1
    conflicts := 1 }

/-- Witness for C10: a consistent record (1 alliance, 1 conflict, rate 1/2)
updated with a "chat" interaction keeps everything but the counter. -/
theorem relationship_non_vote_frame_witness :
    (("chat" == "vote_agreement") = false) ∧
    (updateRel nonVoteWitnessRel "chat" true).totalInteractions = 5 ∧
    (updateRel nonVoteWitnessRel "chat" true).trustScore = 3/10 ∧
    (updateRel nonVoteWitnessRel "chat" true).agreementRate = 1/2 := by
  have hcons : rateConsistent nonVoteWitnessRel := by
    intro hpos
    norm_num [nonVoteWitnessRel]
  have hc := relationship_non_vote_frame nonVoteWitnessRel "chat" true "peer"
    (by decide) hcons
  refine ⟨by decide, ?_, ?_, ?_⟩
  · rw [hc.1]
    norm_num [nonVoteWitnessRel]
  · rw [hc.2.1]
    norm_num [nonVoteWitnessRel]
  · rw [hc.2.2.2.2.1]
    norm_num [nonVoteWitnessRel]

theorem clamp01_bounds (x : ℚ) : 0 ≤ rmax 0 (rmin 1 x) ∧ rmax 0 (rmin 1 x) ≤ 1 := by
  rw [rmax, rmin]
  split_ifs with h1 h2 h2 <;> constructor <;> linarith

theorem modifyTrait_bounds (traits : List (String × ℚ)) (traitName : String)
    (delta : ℚ) (hb : ∀ p ∈ traits, 0 ≤ p.2 ∧ p.2 ≤ 1) :
    ∀ p ∈ modifyTrait traits traitName delta, 0 ≤ p.2 ∧ p.2 ≤ 1 := by
  intro p hp
  rw [modifyTrait] at hp
  split_ifs at hp with hfound
  · rcases List.mem_map.mp hp with ⟨q, hq, hqe⟩
    by_cases hname : (q.1 == traitName) = true
    · rw [if_pos hname] at hqe
      rw [← hqe]
      exact clamp01_bounds (q.2 + delta)
    · rw [if_neg hname] at hqe
      rw [← hqe]
      exact hb q hq
  · exact hb p hp

theorem metamorphoseTraits_bounds (picked : List (String × ℚ))
    (traits : List (String × ℚ)) (hb : ∀ p ∈ traits, 0 ≤ p.2 ∧ p.2 ≤ 1) :
    ∀ p ∈ metamorphoseTraits traits picked, 0 ≤ p.2 ∧ p.2 ≤ 1 := by
  induction picked generalizing traits with
  | nil => exact hb
  | cons c rest ih =>
    rw [metamorphoseTraits] at *
    exact ih (modifyTrait traits c.1 c.2) (modifyTrait_bounds traits c.1 c.2 hb)

/-- C9: every trait mutation keeps trait values in the unit interval:
modify_trait clamps to [0,1], and Paradoxia.metamorphose (for every choice
of nudged traits and deltas the random source can produce) keeps all traits
in [0,1] and the chaos level in [MIN_CHAOS, MAX_CHAOS] = [0,2]. -/
theorem trait_bounds_invariant (traits : List (String × ℚ)) (traitName : String)
    (delta : ℚ) (picked : List (String × ℚ)) (chaosLevel chaosDelta : ℚ)
    (hb : ∀ p ∈ traits, 0 ≤ p.2 ∧ p.2 ≤ 1) :
    (∀ p ∈ modifyTrait traits traitName delta, 0 ≤ p.2 ∧ p.2 ≤ 1) ∧
    (∀ p ∈ metamorphoseTraits traits picked, 0 ≤ p.2 ∧ p.2 ≤ 1) ∧
    minChaos ≤ metamorphoseChaosLevel chaosLevel chaosDelta ∧
    metamorphoseChaosLevel chaosLevel chaosDelta ≤ maxChaos := by
  refine ⟨modifyTrait_bounds traits traitName delta hb,
    metamorphoseTraits_bounds picked traits hb, ?_, ?_⟩
  · rw [metamorphoseChaosLevel, minChaos, maxChaos, rmax, rmin]
    split_ifs with h1 h2 h2 <;> linarith
  · rw [metamorphoseChaosLevel, minChaos, maxChaos, rmax, rmin]
    split_ifs with h1 h2 h2 <;> linarith

/-- Witness for C9: Paradoxia's initial traits nudged on three traits with
deltas at the ±0.2 extremes stay in [0,1]; chaos 1.0 + 0.3 stays in [0,2]. -/
theorem trait_bounds_invariant_witness :
    (∀ p ∈ metamorphoseTraits
        [("chaotic", 8/10), ("playful", 9/10), ("creative", 9/10)]
        [("chaotic", 2/10), ("playful", -2/10), ("creative", 2/10)],
      0 ≤ p.2 ∧ p.2 ≤ 1) ∧
    minChaos ≤ metamorphoseChaosLevel 1 (3/10) ∧
    metamorphoseChaosLevel 1 (3/10) ≤ maxChaos := by
  have hb : ∀ p ∈ [(("chaotic" : String), (8:ℚ)/10), ("playful", 9/10), ("creative", 9/10)],
      0 ≤ p.2 ∧ p.2 ≤ 1 := by
    intro p hp
    simp only [List.mem_cons, List.mem_singleton] at hp
    rcases hp with h | h | h | h <;> first | (rw [h]; norm_num) | cases h
  have hc := trait_bounds_invariant
    [("chaotic", 8/10), ("playful", 9/10), ("creative", 9/10)] "chaotic" (2/10)
    [("chaotic", 2/10), ("playful", -2/10), ("creative", 2/10)] 1 (3/10) hb
  exact ⟨hc.2.1, hc.2.2.1, hc.2.2.2⟩

theorem structureDistFromOrigin_eq (count : ℕ) :
    structureDistFromOrigin count = 10 + count * 2 := by
  rw [structureDistFromOrigin, structureX, structureZ]
  have key : (Real.cos (structureAngle count) * structureDistance count) ^ 2 +
      (Real.sin (structureAngle count) * structureDistance count) ^ 2 =
      (structureDistance count) ^ 2 := by
    have hcs := Real.cos_sq_add_sin_sq (structureAngle count)
    calc (Real.cos (structureAngle count) * structureDistance count) ^ 2 +
        (Real.sin (structureAngle count) * structureDistance count) ^ 2
        = (Real.cos (structureAngle count) ^ 2 + Real.sin (structureAngle count) ^ 2) *
          (structureDistance count) ^ 2 := by ring
      _ = (structureDistance count) ^ 2 := by rw [hcs, one_mul]
  have hd : (0 : ℝ) ≤ structureDistance count := by
    rw [structureDistance]
    positivity
  rw [key, Real.sqrt_sq hd, structureDistance]

/-- C8: the structure spawned at existing-structure count n sits at angle
n*0.618*2*pi and distance 10+2n along that direction; its Euclidean
distance from the origin is exactly 10+2n, so distances are strictly
increasing in the spawn index. -/
theorem spiral_distance_increasing (m n : ℕ) (h : m < n) :
    structureDistFromOrigin n = 10 + n * 2 ∧
    structureDistFromOrigin m < structureDistFromOrigin n := by
  refine ⟨structureDistFromOrigin_eq n, ?_⟩
  rw [structureDistFromOrigin_eq m, structureDistFromOrigin_eq n]
  have hc : (m : ℝ) < n := by exact_mod_cast h
  linarith

/-- Witness for C8 at spawn indices 0 and 1. -/
theorem spiral_distance_increasing_witness :
    (0 : ℕ) < 1 ∧ (structureDistFromOrigin 1 = 10 + ((1 : ℕ) : ℝ) * 2 ∧
      structureDistFromOrigin 0 < structureDistFromOrigin 1) :=
  ⟨by decide, spiral_distance_increasing 0 1 (by decide)⟩

/-- Proposal content of the Axioma end-to-end voting scenario. -/
def axiomaScenarioContent : String := "Order and sacred structure must be preserved"

theorem axioma_scenario_eval :
    axiomaEvaluateProposal axiomaTraits 0 "Veridicus" axiomaScenarioContent
      = (VoteType.accept, "This proposal properly reinforces sacred order.", 9/10) := by
  have hor : keywordScore orderWords (axiomaScenarioContent.toList.map Char.toLower) = 3 := by
    decide
  have hch : keywordScore chaosWords (axiomaScenarioContent.toList.map Char.toLower) = 0 := by
    decide
  simp only [axiomaEvaluateProposal, hor, hch]
  norm_num [getTrait, axiomaTraits, rmin]

/-- C3 counterexample: on content "Order and sacred structure must be
preserved" the order keyword tally is 3 (order, structure and sacred all
occur), not 2, and the returned confidence is exactly 0.9, not about 0.81. -/
theorem axioma_scenario_counterexample :
    axiomaOrderScore axiomaScenarioContent = 3 ∧
    axiomaOrderScore axiomaScenarioContent ≠ 2 ∧
    (axiomaEvaluateProposal axiomaTraits 0 "Veridicus" axiomaScenarioContent).2.2 = 9/10 ∧
    ((9 : ℚ)/10 = 81/100 → False) := by
  refine ⟨by decide, by decide, ?_, by norm_num⟩
  rw [axioma_scenario_eval]

/-- C3 amended: Axioma with initial traits (certainty 0.9) and no recorded
relationships, evaluating "Order and sacred structure must be preserved"
with no challenges, votes ACCEPT with order_score = 3 and chaos_score = 0;
confidence is 0.7 + 0.1*3 = 1.0 scaled by certainty 0.9 and clamped,
i.e. exactly 0.9. -/
theorem axioma_scenario_vote :
    (axiomaEvaluateProposal axiomaTraits 0 "Veridicus" axiomaScenarioContent).1
      = VoteType.accept ∧
    axiomaOrderScore axiomaScenarioContent = 3 ∧
    axiomaChaosScore axiomaScenarioContent = 0 ∧
    (axiomaEvaluateProposal axiomaTraits 0 "Veridicus" axiomaScenarioContent).2.2
      = rmin 1 ((7/10 + (1/10) * 3) * (9/10)) ∧
    rmin 1 ((7/10 + (1/10) * 3) * (9/10)) = 9/10 := by
  have hv : rmin 1 ((7/10 + (1/10) * 3) * (9/10)) = (9 : ℚ)/10 := by
    norm_num [rmin]
  refine ⟨?_, by decide, by decide, ?_, hv⟩
  · rw [axioma_scenario_eval]
  · rw [axioma_scenario_eval, hv]

theorem decide_action_blocked (A : AutonomyState) (now : ℚ) (tape : Tape)
    (h : now < A.globalActionCooldown) : (decideAction A now tape).1 = none := by
  simp [decideAction, canAct, h]

theorem decideActionGo_cooldown (A : AutonomyState) (now : ℚ)
    (l : List Desire) (draws : List RandDraws)
    (h : ((decideActionGo A now l draws).1).isSome = true) :
    (decideActionGo A now l draws).2.globalActionCooldown = now + 10 := by
  induction l generalizing draws with
  | nil => simp [decideActionGo] at h
  | cons d rest ih =>
    rcases hda : desireToAction A now (draws.getD 0 {}) d with _ | a
    · rw [decideActionGo, hda] at h ⊢
      exact ih draws.tail h
    · rw [decideActionGo, hda]
      rcases htg : a.target with _ | t <;> simp [htg]

/-- C6 (amended): when decide_action acts on a desire (the agent has at
least one desire and an action is returned), the global cooldown of the
resulting state is set to now + 10 seconds, and any decide_action call on
that state strictly before the cooldown instant returns no action.  (The
desire-free spontaneous branch returns its action without touching the
cooldown; see the counterexample.) -/
theorem decide_action_cooldown (A : AutonomyState) (now t2 : ℚ) (tape tape2 : Tape)
    (hne : A.desires ≠ [])
    (hsome : ((decideAction A now tape).1).isSome = true)
    (ht2 : t2 < now + 10) :
    (decideAction A now tape).2.globalActionCooldown = now + 10 ∧
    (decideAction (decideAction A now tape).2 t2 tape2).1 = none := by
  have hkey : (decideAction A now tape).2.globalActionCooldown = now + 10 := by
    by_cases hguard : canAct A now none = false
    · rw [decideAction, if_pos hguard] at hsome
      simp at hsome
    · rw [decideAction, if_neg hguard] at hsome ⊢
      rcases hds : A.desires with _ | ⟨d, ds⟩
      · exact absurd hds hne
      · rw [hds] at hsome
        exact decideActionGo_cooldown A now _ tape.draws hsome
  refine ⟨hkey, decide_action_blocked _ t2 tape2 ?_⟩
  rw [hkey]
  exact ht2

theorem spontaneousScan_no_chat (r : ℚ) (l : List (ActionType × ℚ)) (cum : ℚ)
    (a : AutonomousAction) (h : spontaneousScan r cum l = some a) :
    a.actionType = ActionType.shareThought ∨ a.actionType = ActionType.makeObservation := by
  induction l generalizing cum with
  | nil => simp [spontaneousScan] at h
  | cons p rest ih =>
    rw [spontaneousScan] at h
    split_ifs at h with hle h1 h2
    · cases h
      left
      rfl
    · cases h
      right
      rfl
    · exact ih (cum + p.2) h

theorem createChatAction_canAct (A : AutonomyState) (now : ℚ) (rd : RandDraws)
    (d : Desire) (a : AutonomousAction) (t : String)
    (h : createChatAction A now rd d = some a) (htg : a.target = some t) :
    canAct A now (some t) = true := by
  rw [createChatAction] at h
  rcases hq : chatTargetFor A rd d with _ | t2
  · rw [hq] at h
    cases h
  · rw [hq] at h
    have h2 : (if canAct A now (some t2) = true then
          some ({ actionType := ActionType.initiateChat
                  target := some t2
                  content := none
                  metadata := [("reason", MetaVal.str d.reason)]
                  priority := d.intensity
                  triggeredBy := some d.dtype } : AutonomousAction)
        else none) = some a := h
    split_ifs at h2 with hca
    cases h2
    simp only [Option.some.injEq] at htg
    rw [← htg]
    exact hca

theorem createChallengeAction_type (A : AutonomyState) (rd : RandDraws) (d : Desire)
    (a : AutonomousAction) (h : createChallengeAction A rd d = some a) :
    a.actionType = ActionType.challengeIdea := by
  rw [createChallengeAction] at h
  rcases hre : A.recentEvents with _ | ⟨e, es⟩
  · rw [hre] at h
    cases h
  · rw [hre] at h
    rcases hf : (e :: es).filter
        (fun e => e.etype == "proposal_accepted" || e.etype == "thought_shared")
      with _ | ⟨c, cs⟩
    · rw [hf] at h
      cases h
    · rw [hf] at h
      cases h
      rfl

theorem desireToAction_chat_canAct (A : AutonomyState) (now : ℚ) (rd : RandDraws)
    (d : Desire) (a : AutonomousAction) (t : String)
    (h : desireToAction A now rd d = some a)
    (hty : a.actionType = ActionType.initiateChat)
    (htg : a.target = some t) :
    canAct A now (some t) = true := by
  rw [desireToAction] at h
  rcases hsel : selectActionType A.archetype rd d.dtype with _ | sel
  · rw [hsel] at h
    cases h
  · rw [hsel] at h
    cases sel
    case initiateChat => exact createChatAction_canAct A now rd d a t h htg
    case respondToPresence => cases h
    case makeObservation =>
      cases h
      simp at hty
    case shareThought =>
      cases h
      simp [createThoughtAction] at hty
    case proposeTopic => cases h
    case createInWorld => cases h
    case challengeIdea =>
      rw [createChallengeAction_type A rd d a h] at hty
      cases hty
    case expressEmotion =>
      cases h
      simp [createEmotionAction] at hty

theorem decideActionGo_chat_canAct (A : AutonomyState) (now : ℚ)
    (l : List Desire) (draws : List RandDraws) (a : AutonomousAction) (t : String)
    (h : (decideActionGo A now l draws).1 = some a)
    (hty : a.actionType = ActionType.initiateChat)
    (htg : a.target = some t) :
    canAct A now (some t) = true := by
  induction l generalizing draws with
  | nil => simp [decideActionGo] at h
  | cons d rest ih =>
    rcases hda : desireToAction A now (draws.getD 0 {}) d with _ | a2
    · rw [decideActionGo, hda] at h
      exact ih draws.tail h
    · rw [decideActionGo, hda] at h
      have ha : a2 = a := by simpa using h
      rw [ha] at hda
      exact desireToAction_chat_canAct A now (draws.getD 0 {}) d a t hda hty htg

/-- C7 (amended): decide_action never returns an INITIATE_CHAT action whose
target was interacted with less than 30 seconds before now. -/
theorem decide_action_chat_target_cooldown (A : AutonomyState) (now : ℚ)
    (tape : Tape) (a : AutonomousAction) (t : String) (last : ℚ)
    (h : (decideAction A now tape).1 = some a)
    (hty : a.actionType = ActionType.initiateChat)
    (htg : a.target = some t)
    (hl : lookupTime A.lastInteractionWith t = some last) :
    ¬ (now - last < 30) := by
  by_cases hguard : canAct A now none = false
  · rw [decideAction, if_pos hguard] at h
    simp at h
  · rw [decideAction, if_neg hguard] at h
    rcases hds : A.desires with _ | ⟨d, ds⟩
    · rw [hds] at h
      split_ifs at h with hr
      have h2 : generateSpontaneousAction A.archetype tape.spontPick = some a := by
        simpa using h
      simp only [generateSpontaneousAction] at h2
      rcases spontaneousScan_no_chat _ _ _ a h2 with h3 | h3 <;>
        rw [hty] at h3 <;> cases h3
    · rw [hds] at h
      have hca := decideActionGo_chat_canAct A now _ tape.draws a t h hty htg
      rw [canAct] at hca
      split_ifs at hca with hcool
      rw [hl] at hca
      simpa using hca

theorem weightFor_order : weightFor "order" = orderWeights := rfl

/-- Witness state for C6: one strong reflection desire, no cooldowns. -/
def thoughtWitnessState : AutonomyState :=
  { archetype := "order"
    desires := [{ dtype := DesireType.reflection, intensity := 9/10 }]
    awareOfUsers := []
    awareOfAgents := []
    recentEvents := []
    lastInteractionWith := []
    globalActionCooldown := 0 }

/-- Witness tape for C6: the single desire attempt passes its weight trial. -/
def thoughtTape : Tape := { spontRand := 1, spontPick := 0, draws := [{ trialRands := [0] }] }

/-- Witness for C6: at t=100 the reflection desire converts to a
SHARE_THOUGHT action, the cooldown becomes 110, and a call at t=105
returns nothing. -/
theorem decide_action_cooldown_witness :
    thoughtWitnessState.desires ≠ [] ∧
    ((decideAction thoughtWitnessState 100 thoughtTape).1).isSome = true ∧
    ((105 : ℚ) < 100 + 10) ∧
    ((decideAction thoughtWitnessState 100 thoughtTape).2.globalActionCooldown = 100 + 10 ∧
      (decideAction (decideAction thoughtWitnessState 100 thoughtTape).2 105 thoughtTape).1
        = none) := by
  have hne : thoughtWitnessState.desires ≠ [] := by
    simp [thoughtWitnessState]
  have hsel : selectActionType "order" { trialRands := [0] } DesireType.reflection
      = some ActionType.shareThought := by
    norm_num [selectActionType, desireActions, weightFor_order, orderWeights,
      List.enum, List.enumFrom, List.filter, List.map, List.getD]
  have hsome : ((decideAction thoughtWitnessState 100 thoughtTape).1).isSome = true := by
    norm_num [decideAction, canAct, thoughtWitnessState, thoughtTape, sortByIntensityDesc,
      insertByIntensity, decideActionGo, desireToAction, hsel, List.getD, createThoughtAction]
  have ht2 : (105 : ℚ) < 100 + 10 := by norm_num
  exact ⟨hne, hsome, ht2,
    decide_action_cooldown thoughtWitnessState 100 105 thoughtTape thoughtTape hne hsome ht2⟩

/-- Counterexample state for C6: no desires at all, no cooldown. -/
def spontState : AutonomyState :=
  { archetype := "order"
    desires := []
    awareOfUsers := []
    awareOfAgents := []
    recentEvents := []
    lastInteractionWith := []
    globalActionCooldown := 0 }

/-- Counterexample tape for C6: the 10% spontaneous draw succeeds and the
weighted pick lands on SHARE_THOUGHT (r = 0.4 * 5.0 = 2.0). -/
def spontTape : Tape := { spontRand := 0, spontPick := 2/5, draws := [] }

/-- C6 counterexample: with no desires, the spontaneous branch returns a
SHARE_THOUGHT action at t=100 while leaving the state (and hence the
global cooldown) unchanged, and a second call 5 seconds later again
returns an action — so a successful decide_action does not always set the
cooldown, and a call within 10 seconds can still act. -/
theorem decide_action_cooldown_counterexample :
    ((decideAction spontState 100 spontTape).1).isSome = true ∧
    (decideAction spontState 100 spontTape).2 = spontState ∧
    ((105 : ℚ) < 100 + 10) ∧
    ((decideAction spontState 105 spontTape).1).isSome = true := by
  have heval : ∀ t : ℚ, 0 ≤ t → decideAction spontState t spontTape
      = (generateSpontaneousAction "order" (2/5), spontState) := by
    intro t ht
    rw [decideAction]
    rw [if_neg (by norm_num [canAct, spontState, ht])]
    norm_num [spontState, spontTape]
  have hgen : (generateSpontaneousAction "order" (2/5)).isSome = true := by
    norm_num [generateSpontaneousAction, allActionTypes, weightFor_order, orderWeights,
      spontaneousScan, List.map, List.sum]
  refine ⟨?_, ?_, by norm_num, ?_⟩
  · rw [heval 100 (by norm_num)]
    exact hgen
  · rw [heval 100 (by norm_num)]
  · rw [heval 105 (by norm_num)]
    exact hgen

/-- Counterexample state for C7: a reflection desire while "world" was
interacted with 5 seconds ago. -/
def worldState : AutonomyState :=
  { archetype := "order"
    desires := [{ dtype := DesireType.reflection, intensity := 9/10 }]
    awareOfUsers := []
    awareOfAgents := []
    recentEvents := []
    lastInteractionWith := [("world", 95)]
    globalActionCooldown := 0 }

/-- Counterexample tape for C7: the desire attempt passes its weight trial. -/
def worldTape : Tape := { spontRand := 1, spontPick := 0, draws := [{ trialRands := [0] }] }

/-- C7 counterexample: although "world" is inside its 30-second per-target
cooldown (can_act on that target is false), decide_action still returns a
SHARE_THOUGHT action targeting "world" — only chat actions consult the
per-target cooldown. -/
theorem decide_action_per_target_counterexample :
    lookupTime worldState.lastInteractionWith "world" = some 95 ∧
    ((100 : ℚ) - 95 < 30) ∧
    canAct worldState 100 (some "world") = false ∧
    ((decideAction worldState 100 worldTape).1.map (fun a => a.target))
      = some (some "world") := by
  have hsel : selectActionType "order" { trialRands := [0] } DesireType.reflection
      = some ActionType.shareThought := by
    norm_num [selectActionType, desireActions, weightFor_order, orderWeights,
      List.enum, List.enumFrom, List.filter, List.map, List.getD]
  refine ⟨rfl, by norm_num, ?_, ?_⟩
  · norm_num [canAct, worldState, lookupTime, List.find?]
  · norm_num [decideAction, canAct, worldState, worldTape, sortByIntensityDesc,
      insertByIntensity, decideActionGo, desireToAction, hsel, List.getD,
      createThoughtAction, lookupTime, List.find?]

/-- Witness state for C7: a social desire targeting user alice, last
interacted with 50 seconds ago. -/
def chatWitnessState : AutonomyState :=
  { archetype := "order"
    desires := [{ dtype := DesireType.social, intensity := 9/10, target := some "alice" }]
    awareOfUsers := ["alice"]
    awareOfAgents := []
    recentEvents := []
    lastInteractionWith := [("alice", 50)]
    globalActionCooldown := 0 }

/-- Witness tape for C7: the chat candidate passes its trial, the
share-thought candidate fails its trial. -/
def chatWitnessTape : Tape := { spontRand := 1, spontPick := 0, draws := [{ trialRands := [0, 1] }] }

/-- The chat action produced in the C7 witness scenario. -/
def chatWitnessAction : AutonomousAction :=
  { actionType := ActionType.initiateChat
    target := some "alice"
    metadata := [("reason", MetaVal.str none)]
    priority := 9/10
    triggeredBy := some DesireType.social }

/-- Witness for C7: a chat action aimed at alice is produced, and alice's
recorded last interaction is indeed at least 30 seconds old. -/
theorem decide_action_chat_target_cooldown_witness :
    (decideAction chatWitnessState 100 chatWitnessTape).1 = some chatWitnessAction ∧
    chatWitnessAction.actionType = ActionType.initiateChat ∧
    chatWitnessAction.target = some "alice" ∧
    lookupTime chatWitnessState.lastInteractionWith "alice" = some 50 ∧
    ¬ ((100 : ℚ) - 50 < 30) := by
  have hsel : selectActionType "order" { trialRands := [0, 1] } DesireType.social
      = some ActionType.initiateChat := by
    norm_num [selectActionType, desireActions, weightFor_order, orderWeights,
      List.enum, List.enumFrom, List.filter, List.map, List.getD]
  have h1 : (decideAction chatWitnessState 100 chatWitnessTape).1 = some chatWitnessAction := by
    norm_num [decideAction, canAct, chatWitnessState, chatWitnessTape, sortByIntensityDesc,
      insertByIntensity, decideActionGo, desireToAction, hsel, List.getD,
      createChatAction, chatTargetFor, lookupTime, List.find?, chatWitnessAction]
  have hl : lookupTime chatWitnessState.lastInteractionWith "alice" = some 50 := rfl
  exact ⟨h1, rfl, rfl, hl,
    decide_action_chat_target_cooldown chatWitnessState 100 chatWitnessTape chatWitnessAction
      "alice" 50 h1 rfl rfl hl⟩
